import Mathlib

/-!
Shallow embedding of `code_analyzer.py` (SleepAdvisor repository): the
orchestration-and-reporting pipeline (environment gate, analyzer runner,
obsolete-marker scanner, summary aggregator, pipeline driver), together
with theorems settling the frozen claims about it.

External effects are modelled as explicit inputs: the outcome of each
subprocess invocation, the content of each source file, and the
success/failure of each report-artifact write are fields of an
environment record, and the pipeline is a pure function of it.
-/

/-! ## String utilities mirroring the Python primitives used by the script -/

/-- Decides whether `pat` occurs at the start of `s` (character-by-character). -/
def listStarts : List Char → List Char → Bool
  | [], _ => true
  | _ :: _, [] => false
  | p :: ps, c :: cs => p == c && listStarts ps cs

/-- Decides whether `pat` occurs as a contiguous sublist of `s`:
the meaning of Python's case-sensitive `pat in s` on strings. -/
def listHasSub (pat : List Char) : List Char → Bool
  | [] => listStarts pat []
  | c :: cs => listStarts pat (c :: cs) || listHasSub pat cs

/-- Python's `pat in s` substring test on strings. -/
def hasSubstr (pat s : String) : Bool :=
  listHasSub pat.toList s.toList

/-- The ASCII whitespace characters removed by Python's `str.strip()`
(the source files only contain ASCII whitespace, so the ASCII subset of
Python's whitespace set is faithful here). -/
def isPySpace (c : Char) : Bool :=
  c == ' ' || c == '\t' || c == '\n' || c == '\x0D' || c == '\x0B' || c == '\x0C'

/-- Python's `str.strip()`: remove leading and trailing whitespace. -/
def strStrip (s : String) : String :=
  String.mk (((s.toList.dropWhile isPySpace).reverse.dropWhile isPySpace).reverse)

/-- Python's `str.lower()` on ASCII input (the script only compares against "s"). -/
def strLower (s : String) : String :=
  String.mk (s.toList.map Char.toLower)

/-- Python's `s.endswith(suffixStr)`. -/
def strEndsWith (s sfx : String) : Bool :=
  listStarts sfx.toList.reverse s.toList.reverse

/-- Python's `f"{t:30}"`: left-justify `t` in a field of 30 characters. -/
def padTo (w : Nat) (s : String) : String :=
  s ++ String.mk (List.replicate (w - s.length) ' ')

example : strStrip "  # FIXME: old  " = "# FIXME: old" := by decide
example : hasSubstr "# XXX:" "ab # XXX: c" = true := by decide
example : hasSubstr "# XXX:" "ab # xxx: c" = false := by decide
example : strEndsWith "foo.py" ".py" = true := by decide
example : strEndsWith "foo.pyc" ".py" = false := by decide

/-! ## Obsolete-Marker Scanner (`find_deprecated_apis`, code_analyzer.py lines 219-263) -/

/-- The seven marker strings of `deprecated_patterns` (lines 224-232). -/
def deprecated_patterns : List String :=
  ["@Deprecated", "deprecated(", "DeprecationWarning", "PendingDeprecationWarning",
   "# TODO: Remove", "# FIXME:", "# XXX:"]

/-- The extension allow-list of line 243: `file.endswith(('.kt', '.java', '.py', '.xml', '.gradle'))`. -/
def allowed_extensions : List String :=
  [".kt", ".java", ".py", ".xml", ".gradle"]

/-- One file yielded by `os.walk(SOURCE_DIR)` (line 241), i.e. a file lying
under the source root, in enumeration order. `relPath` is
`file_path.relative_to(PROJECT_ROOT)`; `fname` is the bare filename the
extension filter inspects; `content` is the list of lines `readlines()`
returns, or `none` when opening/reading the file raises (line 257). -/
structure SrcFile where
  relPath : String
  fname : String
  content : Option (List String)
deriving DecidableEq

/-- Line 243: the extension filter on the filename. -/
def allowedFile (name : String) : Bool :=
  allowed_extensions.any (fun ext => strEndsWith name ext)

/-- Line 252: `any(pattern in line for pattern in deprecated_patterns)`. -/
def lineFlagged (line : String) : Bool :=
  deprecated_patterns.any (fun p => hasSubstr p line)

/-- One recorded scanner Finding, exactly the data lines 253-254 write:
relative path, 1-based line number, and the `line.strip()` text. -/
structure Finding where
  relPath : String
  lineNo : Nat
  text : String
deriving DecidableEq

/-- Lines 251-255: `for i, line in enumerate(lines, 1): if any(...): record`.
`i` is the 1-based number of the first line of `ls`. -/
def scanLines (p : String) : Nat → List String → List Finding
  | _, [] => []
  | i, line :: rest =>
    if lineFlagged line then
      ⟨p, i, strStrip line⟩ :: scanLines p (i + 1) rest
    else
      scanLines p (i + 1) rest

/-- The Findings recorded for one enumerated file: none when reading the
file raised (the except of line 257 skips it), else the line scan
starting at line number 1. -/
def fileFindings (f : SrcFile) : List Finding :=
  match f.content with
  | none => []
  | some ls => scanLines f.relPath 1 ls

/-- Lines 241-255: all Findings of the walk, files in enumeration order,
restricted to allow-listed filenames. -/
def find_deprecated_apis (tree : List SrcFile) : List Finding :=
  (tree.filter (fun f => allowedFile f.fname)).flatMap fileFindings

/-- Lines 253-254: the two report lines (plus blank line) written per Finding. -/
def findingText (fd : Finding) : String :=
  "Arquivo: " ++ fd.relPath ++ ":" ++ toString fd.lineNo ++ "\n" ++
  "Linha " ++ toString fd.lineNo ++ ": " ++ fd.text ++ "\n\n"

/-- Line 238: the static header written unconditionally at the top of the report. -/
def scannerHeader : String := "=== APIs e Código Obsoleto Encontrado ===\n\n"

/-- The full text of `deprecated_apis_report.txt` after the scan
(lines 237-255): header, then every Finding's entry in recorded order. -/
def scannerReport (tree : List SrcFile) : String :=
  scannerHeader ++ String.join ((find_deprecated_apis tree).map findingText)

example :
    find_deprecated_apis [⟨"app/src/main/a.py", "a.py", some ["x = 1\n", "y  # FIXME: z\n"]⟩] =
      [⟨"app/src/main/a.py", 2, "y  # FIXME: z"⟩] := by decide
example : find_deprecated_apis [⟨"app/a.txt", "a.txt", some ["# FIXME: z\n"]⟩] = [] := by decide

/-! ## run_command (lines 40-54) and the environment gate (lines 56-82) -/

/-- The outcome of one `subprocess.run(..., capture_output=True, text=True)`
invocation: either the process ran (returncode, stdout, stderr captured
separately), or launching it raised an exception with a message. -/
inductive ProcResult where
  | ok : Int → String → String → ProcResult
  | exn : String → ProcResult
deriving DecidableEq

/-- Lines 40-54: on success return `(result.returncode, result.stdout)`
(line 51 — stderr is captured but never returned); on any exception the
handler of lines 52-54 returns `(-1, "")`. -/
def run_command (r : ProcResult) : Int × String :=
  match r with
  | .ok code out _ => (code, out)
  | .exn _ => (-1, "")

/-- Lines 60-63: the declared Requirements. -/
def required_packages : List String :=
  ["flake8", "black", "radon", "vulture", "bandit", "mypy", "pylint", "detect-secrets"]

/-- Lines 65-69: a package is missing iff the output of `pip show pkg`
strips to the empty string; `pipShow` maps each package to that output
(an exception inside `run_command` yields `""`, hence also missing). -/
def missingPackages (pipShow : String → String) : List String :=
  required_packages.filter (fun p => strStrip (pipShow p) == "")

/-- The whole observable outside world of one run of the script. -/
structure Env where
  /-- stdout of `pip show pkg` for each required package (lines 66-67). -/
  pipShow : String → String
  /-- the user's answer to the install prompt (line 75). -/
  answer : String
  /-- outcome of the flake8 invocation (line 96). -/
  flake8 : ProcResult
  /-- outcome of the pylint invocation (line 115). -/
  pylint : ProcResult
  /-- outcome of the `radon cc` invocation (line 135). -/
  radonCC : ProcResult
  /-- outcome of the `radon dupes` invocation (line 150). -/
  radonDupes : ProcResult
  /-- outcome of the vulture invocation (line 168). -/
  vulture : ProcResult
  /-- outcome of the bandit invocation (line 192; bandit writes its own
  report file via `-o`, the script discards its stdout). -/
  bandit : ProcResult
  /-- outcome of the detect-secrets invocation (line 208). -/
  detectSecrets : ProcResult
  /-- outcome of the black invocation (line 277). -/
  black : ProcResult
  /-- the files `os.walk(SOURCE_DIR)` enumerates, in order (line 241). -/
  tree : List SrcFile
  /-- per report-artifact filename: `none` when opening/writing succeeds,
  `some msg` when it raises with that message. -/
  writeFail : String → Option String

/-- Lines 56-82: missing = the packages whose `pip show` output strips
empty; if none, ready; else ready iff the lower-cased answer is "s"
(line 76 — an affirmative answer triggers a bulk install and returns
True without re-verifying). -/
def check_python_environment (e : Env) : Bool :=
  if (missingPackages e.pipShow).isEmpty then true
  else if strLower e.answer == "s" then true
  else false

/-! ## Pipeline driver (main, lines 330-342) with report-artifact writes -/

/-- The seven sequential steps of `main` (lines 336-342). -/
inductive Step where
  | quality | duplicates | unused | security | deprecated | format | summary
deriving DecidableEq, Repr

/-- The order `main` invokes the steps (lines 336-342). -/
def stepOrder : List Step :=
  [.quality, .duplicates, .unused, .security, .deprecated, .format, .summary]

/-- The steps that invoke an external analyzer through `run_command`
(every step except the in-process scanner and the aggregator). -/
def analyzerInvocationSteps : List Step :=
  [.quality, .duplicates, .unused, .security, .format]

/-- Mutable run state: the artifact writes performed so far (filename,
content), and the pending uncaught exception, if any. -/
structure RunState where
  writes : List (String × String)
  errored : Option String
deriving DecidableEq

/-- One `with open(name, "w") as f: f.write(content)` block. None of the
check functions guards these with try/except, so a raise leaves an
uncaught exception in the state and nothing later executes. -/
def doWrite (e : Env) (st : RunState) (name content : String) : RunState :=
  match st.errored with
  | some _ => st
  | none =>
    match e.writeFail name with
    | some m => { st with errored := some m }
    | none => { st with writes := st.writes ++ [(name, content)] }

/-- Lines 84-121: write flake8 stdout to `flake8_report.txt`, then pylint
stdout to `pylint_report.txt`. -/
def analyze_code_quality (e : Env) (st : RunState) : RunState :=
  let st1 := doWrite e st "flake8_report.txt" (run_command e.flake8).2
  doWrite e st1 "pylint_report.txt" (run_command e.pylint).2

/-- Lines 123-156: write `radon cc` stdout to `radon_cc_report.txt`, then
`radon dupes` stdout to `duplicate_code_report.txt`. -/
def find_duplicate_code (e : Env) (st : RunState) : RunState :=
  let st1 := doWrite e st "radon_cc_report.txt" (run_command e.radonCC).2
  doWrite e st1 "duplicate_code_report.txt" (run_command e.radonDupes).2

/-- Lines 158-177: write vulture stdout to `unused_code_report.txt`. -/
def find_unused_code (e : Env) (st : RunState) : RunState :=
  doWrite e st "unused_code_report.txt" (run_command e.vulture).2

/-- Lines 179-217: bandit writes its own file externally (`-o`, line 189);
the script itself writes only detect-secrets stdout to `secrets_report.txt`. -/
def check_security_issues (e : Env) (st : RunState) : RunState :=
  doWrite e st "secrets_report.txt" (run_command e.detectSecrets).2

/-- Lines 219-263: the scanner writes its whole report (header plus every
Finding entry) to `deprecated_apis_report.txt`. -/
def run_deprecated_scan (e : Env) (st : RunState) : RunState :=
  doWrite e st "deprecated_apis_report.txt" (scannerReport e.tree)

/-- Lines 265-287: write black stdout to `code_format_report.txt`. -/
def check_code_format (e : Env) (st : RunState) : RunState :=
  doWrite e st "code_format_report.txt" (run_command e.black).2

/-- Dispatch one step of `main`. The summary step (lines 289-328) writes
no artifact and catches its own read and print errors, so it never
changes the run state. -/
def stepExec (e : Env) : Step → RunState → RunState
  | .quality, st => analyze_code_quality e st
  | .duplicates, st => find_duplicate_code e st
  | .unused, st => find_unused_code e st
  | .security, st => check_security_issues e st
  | .deprecated, st => run_deprecated_scan e st
  | .format, st => check_code_format e st
  | .summary, st => st

/-- Run the listed steps in order. A step begins only while no exception
is pending; an exception raised inside a step is uncaught (there is no
try/except in `main`), so the remaining steps never begin. -/
def runSteps (e : Env) : List Step → RunState → List Step × RunState
  | [], st => ([], st)
  | s :: rest, st =>
    match st.errored with
    | some _ => ([], st)
    | none =>
      let st2 := stepExec e s st
      let (tr, st3) := runSteps e rest st2
      (s :: tr, st3)

/-- The gated part of `main` (lines 336-342), from a fresh run state. -/
def pipelineRun (e : Env) : List Step × RunState :=
  runSteps e stepOrder ⟨[], none⟩

/-- The steps that begin executing in a run of `main`: none when the
environment gate returns False (lines 332-334). -/
def mainTrace (e : Env) : List Step :=
  if check_python_environment e then (pipelineRun e).1 else []

/-- The report-artifact writes a run of `main` performs. -/
def mainWrites (e : Env) : List (String × String) :=
  if check_python_environment e then (pipelineRun e).2.writes else []

/-- The artifact writes of a run in which nothing fails, in order. -/
def explicitWrites (e : Env) : List (String × String) :=
  [("flake8_report.txt", (run_command e.flake8).2),
   ("pylint_report.txt", (run_command e.pylint).2),
   ("radon_cc_report.txt", (run_command e.radonCC).2),
   ("duplicate_code_report.txt", (run_command e.radonDupes).2),
   ("unused_code_report.txt", (run_command e.vulture).2),
   ("secrets_report.txt", (run_command e.detectSecrets).2),
   ("deprecated_apis_report.txt", scannerReport e.tree),
   ("code_format_report.txt", (run_command e.black).2)]

/-! ## Summary Aggregator (`generate_summary_report`, lines 289-328) -/

/-- What the aggregator finds at one report-artifact path: the file is
absent (line 308 `exists()` is False), or it exists but reading raises
(lines 317-318), or reading yields this content. -/
inductive ArtifactState where
  | absent : ArtifactState
  | unreadable : String → ArtifactState
  | readable : String → ArtifactState
deriving DecidableEq

/-- Lines 297-304: the fixed title-to-filename mapping of the summary. -/
def reportsList : List (String × String) :=
  [("Qualidade do Codigo (pylint)", "pylint_report.txt"),
   ("Codigo Duplicado", "duplicate_code_report.txt"),
   ("Codigo Nao Utilizado", "unused_code_report.txt"),
   ("Problemas de Seguranca", "security_report.txt"),
   ("APIs Obsoletas", "deprecated_apis_report.txt"),
   ("Formatacao do Codigo", "code_format_report.txt")]

/-- Lines 291-295: the three header lines of the summary. -/
def summaryHeaderLines : List String :=
  ["\n" ++ String.mk (List.replicate 80 '='),
   String.mk (List.replicate 25 ' ') ++ "RELATORIO RESUMIDO DA ANALISE" ++
     String.mk (List.replicate 26 ' '),
   String.mk (List.replicate 80 '=')]

/-- Lines 306-318: the summary row for one title given its artifact
state: no row when the file does not exist; an ERRO row carrying the
exception text when reading raises; otherwise attention iff the content
stripped of whitespace is non-empty, else OK. -/
def summaryRow (title : String) (st : ArtifactState) : Option String :=
  match st with
  | .absent => none
  | .unreadable r => some (padTo 30 title ++ " " ++ ("[ERRO] Falha ao ler o arquivo: " ++ r))
  | .readable c =>
    some (padTo 30 title ++ " " ++
      (if strStrip c == "" then "[OK] Sem problemas" else "[!] Requer atencao"))

/-- Lines 289-318: the summary lines, header first, then one row per
mapping entry whose artifact exists, in mapping order. -/
def generate_summary_report (store : String → ArtifactState) : List String :=
  summaryHeaderLines ++ reportsList.filterMap (fun tf => summaryRow tf.1 (store tf.2))

/-- The artifact a filename holds when the summary runs at the end of a
run of `main` over `e`: the content this run wrote (a file the process
itself just wrote is readable, and the read uses errors='replace', so it
cannot raise on decoding), else whatever `base` says was there before. -/
def storeAfter (e : Env) (base : String → ArtifactState) (name : String) : ArtifactState :=
  match (mainWrites e).lookup name with
  | some c => ArtifactState.readable c
  | none => base name

/-- A run in which every tool is installed, every subprocess succeeds
with empty output, the source tree is empty and every write succeeds. -/
def okEnv : Env :=
  { pipShow := fun _ => "Name: pkg", answer := "n",
    flake8 := .ok 0 "" "", pylint := .ok 0 "" "",
    radonCC := .ok 0 "" "", radonDupes := .ok 0 "" "",
    vulture := .ok 0 "" "", bandit := .ok 0 "" "",
    detectSecrets := .ok 0 "" "", black := .ok 0 "" "",
    tree := [], writeFail := fun _ => none }

example : check_python_environment okEnv = true := by decide
example : mainTrace okEnv = stepOrder := by decide
example : mainWrites okEnv = explicitWrites okEnv := by decide

/-! ## Helper lemmas about the scanner -/

/-- Membership in a line scan started at line number `i`: exactly the
flagged lines, numbered `i + offset`, with stripped text. -/
theorem scanLines_mem (p : String) (ls : List String) :
    ∀ (i : Nat) (fd : Finding),
      fd ∈ scanLines p i ls ↔
        ∃ j line, ls.get? j = some line ∧ lineFlagged line = true ∧
          fd = ⟨p, i + j, strStrip line⟩ := by
  induction ls with
  | nil => intro i fd; simp [scanLines]
  | cons l rest ih =>
    intro i fd
    constructor
    · intro hm
      by_cases hf : lineFlagged l
      · simp only [scanLines, if_pos hf] at hm
        rcases List.mem_cons.mp hm with h | h
        · exact ⟨0, l, rfl, hf, by simpa using h⟩
        · obtain ⟨j, line, hg, hfl, hfd⟩ := (ih (i + 1) fd).mp h
          refine ⟨j + 1, line, by simpa using hg, hfl, ?_⟩
          rw [hfd]; congr 1; omega
      · simp only [scanLines, if_neg hf] at hm
        obtain ⟨j, line, hg, hfl, hfd⟩ := (ih (i + 1) fd).mp hm
        refine ⟨j + 1, line, by simpa using hg, hfl, ?_⟩
        rw [hfd]; congr 1; omega
    · rintro ⟨j, line, hg, hfl, rfl⟩
      cases j with
      | zero =>
        simp only [List.get?] at hg
        cases hg
        simp [scanLines, hfl]
      | succ j =>
        simp only [List.get?] at hg
        by_cases hf : lineFlagged l
        · simp only [scanLines, if_pos hf]
          refine List.mem_cons_of_mem _ ?_
          refine (ih (i + 1) _).mpr ⟨j, line, hg, hfl, ?_⟩
          congr 1; omega
        · simp only [scanLines, if_neg hf]
          exact (ih (i + 1) _).mpr ⟨j, line, hg, hfl, by congr 1; omega⟩

/-- Every Finding of a scan started at `i` has line number at least `i`. -/
theorem scanLines_lineNo_ge (p : String) (ls : List String) :
    ∀ (i : Nat) (fd : Finding), fd ∈ scanLines p i ls → i ≤ fd.lineNo := by
  induction ls with
  | nil => intro i fd h; simp [scanLines] at h
  | cons l rest ih =>
    intro i fd h
    by_cases hf : lineFlagged l
    · simp only [scanLines, if_pos hf] at h
      rcases List.mem_cons.mp h with rfl | h
      · exact Nat.le_refl i
      · exact Nat.le_of_succ_le (ih (i + 1) fd h)
    · simp only [scanLines, if_neg hf] at h
      exact Nat.le_of_succ_le (ih (i + 1) fd h)

/-- The Findings of one file are recorded in strictly ascending line order. -/
theorem scanLines_pairwise (p : String) (ls : List String) :
    ∀ i : Nat, (scanLines p i ls).Pairwise (fun a b => a.lineNo < b.lineNo) := by
  induction ls with
  | nil => intro i; simp [scanLines]
  | cons l rest ih =>
    intro i
    by_cases hf : lineFlagged l
    · simp only [scanLines, if_pos hf]
      refine List.Pairwise.cons ?_ (ih (i + 1))
      intro b hb
      exact Nat.lt_of_succ_le (scanLines_lineNo_ge p rest (i + 1) b hb)
    · simp only [scanLines, if_neg hf]
      exact ih (i + 1)

/-- Membership in one file's Findings. -/
theorem mem_fileFindings (f : SrcFile) (fd : Finding) :
    fd ∈ fileFindings f ↔ ∃ ls, f.content = some ls ∧ fd ∈ scanLines f.relPath 1 ls := by
  cases hc : f.content with
  | none => simp [fileFindings, hc]
  | some ls => simp [fileFindings, hc]

/-- Membership in the scanner's Findings: exactly the flagged lines of
allow-listed, readable files under the source root. -/
theorem mem_find_deprecated_apis (tree : List SrcFile) (fd : Finding) :
    fd ∈ find_deprecated_apis tree ↔
      ∃ f, f ∈ tree ∧ allowedFile f.fname = true ∧
        ∃ ls, f.content = some ls ∧
          ∃ j line, ls.get? j = some line ∧ lineFlagged line = true ∧
            fd = ⟨f.relPath, 1 + j, strStrip line⟩ := by
  simp only [find_deprecated_apis, List.mem_flatMap, List.mem_filter, mem_fileFindings,
    scanLines_mem]
  constructor
  · rintro ⟨f, ⟨hmem, hall⟩, ls, hc, j, line, hg, hfl, rfl⟩
    exact ⟨f, hmem, hall, ls, hc, j, line, hg, hfl, rfl⟩
  · rintro ⟨f, hmem, hall, ls, hc, j, line, hg, hfl, rfl⟩
    exact ⟨f, ⟨hmem, hall⟩, ls, hc, j, line, hg, hfl, rfl⟩

/-! ## Helper lemmas about the pipeline -/

/-- When every artifact write succeeds, the gated pipeline executes all
seven steps and performs exactly the eight writes, in order, with no
pending exception. -/
theorem pipelineRun_of_ok (e : Env) (hw : ∀ n, e.writeFail n = none) :
    pipelineRun e = (stepOrder, ⟨explicitWrites e, none⟩) := by
  simp [pipelineRun, stepOrder, runSteps, stepExec, analyze_code_quality, find_duplicate_code,
    find_unused_code, check_security_issues, run_deprecated_scan, check_code_format,
    doWrite, hw, explicitWrites]

/-- When the gate passes and every write succeeds, the trace is the full
fixed step order. -/
theorem mainTrace_of_ok (e : Env) (hg : check_python_environment e = true)
    (hw : ∀ n, e.writeFail n = none) : mainTrace e = stepOrder := by
  simp [mainTrace, hg, pipelineRun_of_ok e hw]

/-- When the gate passes and every write succeeds, the writes of the run
are exactly the eight artifact writes, in order. -/
theorem mainWrites_of_ok (e : Env) (hg : check_python_environment e = true)
    (hw : ∀ n, e.writeFail n = none) : mainWrites e = explicitWrites e := by
  simp [mainWrites, hg, pipelineRun_of_ok e hw]

/-- The line-flag test spelled out: some configured marker is a
case-sensitive substring of the line. -/
theorem lineFlagged_iff (line : String) :
    lineFlagged line = true ↔
      ∃ pat, pat ∈ deprecated_patterns ∧ hasSubstr pat line = true := by
  simp [lineFlagged, List.any_eq_true]

/-- The extension filter spelled out: the filename ends with some
allow-listed extension. -/
theorem allowedFile_iff (name : String) :
    allowedFile name = true ↔
      ∃ ext, ext ∈ allowed_extensions ∧ strEndsWith name ext = true := by
  simp [allowedFile, List.any_eq_true]

/-! ## Claim theorems -/

/-- C1: the Obsolete-Marker Scanner records a Finding for line `1 + j` of
file `f` iff `f` is among the files enumerated under the source root, its
filename ends with an allow-listed extension, the file is readable, and
at least one of the seven configured marker strings is a case-sensitive
substring of that line's text; the per-file Findings are in strictly
ascending line order, and the overall list (hence the report artifact,
whose text serializes it in order after the header) concatenates the
per-file lists in the order the enumeration yields the files. -/
theorem C1_scanner_findings (tree : List SrcFile) (fd : Finding) :
    (fd ∈ find_deprecated_apis tree ↔
      ∃ f, f ∈ tree ∧ allowedFile f.fname = true ∧
        ∃ ls, f.content = some ls ∧
          ∃ j line, ls.get? j = some line ∧ lineFlagged line = true ∧
            fd = ⟨f.relPath, 1 + j, strStrip line⟩) ∧
    (∀ line, lineFlagged line = true ↔
      ∃ pat, pat ∈ deprecated_patterns ∧ hasSubstr pat line = true) ∧
    (∀ name, allowedFile name = true ↔
      ∃ ext, ext ∈ allowed_extensions ∧ strEndsWith name ext = true) ∧
    (∀ f : SrcFile, (fileFindings f).Pairwise (fun a b => a.lineNo < b.lineNo)) ∧
    find_deprecated_apis tree =
      List.flatten ((tree.filter (fun f => allowedFile f.fname)).map fileFindings) ∧
    scannerReport tree =
      scannerHeader ++ String.join ((find_deprecated_apis tree).map findingText) := by
  refine ⟨mem_find_deprecated_apis tree fd, lineFlagged_iff, allowedFile_iff, ?_, ?_, rfl⟩
  · intro f
    cases hc : f.content with
    | none => simp [fileFindings, hc]
    | some ls => simpa [fileFindings, hc] using scanLines_pairwise f.relPath ls 1
  · simp [find_deprecated_apis, List.flatMap_def]

/-- A tree with one allow-listed file whose single flagged line has
leading and trailing whitespace. -/
def c9Tree : List SrcFile := [⟨"app/src/main/a.py", "a.py", some ["  # FIXME: old  "]⟩]

/-- C9 counterexample: the Finding recorded for the flagged line carries
the stripped text "# FIXME: old", not the raw line text, and the raw
line text does not occur anywhere in the serialized report; the Finding
(`Finding`, exactly the data lines 253-254 write) carries no
matched-pattern component at all. So a Finding does not carry all four
components claimed. -/
theorem C9_cex :
    find_deprecated_apis c9Tree = [⟨"app/src/main/a.py", 1, "# FIXME: old"⟩] ∧
    ("# FIXME: old" : String) ≠ "  # FIXME: old  " ∧
    hasSubstr "  # FIXME: old  " (scannerReport c9Tree) = false := by decide

/-- C9 (amended): every recorded Finding carries the file path relative
to the project root, the 1-based line number, and the line's text
stripped of leading and trailing whitespace (the matched pattern is not
recorded and the text is not raw). -/
theorem C9_finding_components (tree : List SrcFile) (fd : Finding)
    (h : fd ∈ find_deprecated_apis tree) :
    ∃ f, f ∈ tree ∧ allowedFile f.fname = true ∧ fd.relPath = f.relPath ∧
      ∃ ls line, f.content = some ls ∧ 1 ≤ fd.lineNo ∧
        ls.get? (fd.lineNo - 1) = some line ∧ fd.text = strStrip line := by
  obtain ⟨f, hmem, hall, ls, hc, j, line, hg, hfl, rfl⟩ :=
    (mem_find_deprecated_apis tree fd).mp h
  have hj : 1 + j - 1 = j := by omega
  refine ⟨f, hmem, hall, rfl, ls, line, hc, Nat.le_add_right 1 j, ?_, rfl⟩
  show ls.get? (1 + j - 1) = some line
  rw [hj]; exact hg

/-- A tree with one allow-listed file containing one flagged line. -/
def c9wTree : List SrcFile := [⟨"app/src/main/w.py", "w.py", some ["# XXX: w"]⟩]

/-- Witness for C9 (amended) at the concrete tree `c9wTree`. -/
theorem C9_finding_components_witness :
    (⟨"app/src/main/w.py", 1, "# XXX: w"⟩ : Finding) ∈ find_deprecated_apis c9wTree ∧
    (∃ f, f ∈ c9wTree ∧ allowedFile f.fname = true ∧
      (⟨"app/src/main/w.py", 1, "# XXX: w"⟩ : Finding).relPath = f.relPath ∧
      ∃ ls line, f.content = some ls ∧
        1 ≤ (⟨"app/src/main/w.py", 1, "# XXX: w"⟩ : Finding).lineNo ∧
        ls.get? ((⟨"app/src/main/w.py", 1, "# XXX: w"⟩ : Finding).lineNo - 1) = some line ∧
        (⟨"app/src/main/w.py", 1, "# XXX: w"⟩ : Finding).text = strStrip line) :=
  ⟨by decide, C9_finding_components c9wTree _ (by decide)⟩

/-- A source tree with one allow-listed file and no marker anywhere. -/
def c3Tree : List SrcFile := [⟨"app/src/main/clean.py", "clean.py", some ["print(1)\n"]⟩]

/-- A fully successful run over the marker-free tree `c3Tree`. -/
def c3Env : Env := { okEnv with tree := c3Tree }

/-- C3 evaluation: on a source tree where no allow-listed file contains
any configured marker, the scanner's report artifact is exactly the
static header text — but since that header strips to a non-empty string,
the Summary Aggregator's row for the obsolete-APIs Check reads
"[!] Requer atencao" (attention), not clean, contradicting both the
claim and the scanner's own green no-findings message (line 263). -/
theorem C3_header_attention :
    scannerReport c3Tree = scannerHeader ∧
    storeAfter c3Env (fun _ => ArtifactState.absent) "deprecated_apis_report.txt" =
      ArtifactState.readable scannerHeader ∧
    summaryRow "APIs Obsoletas"
        (storeAfter c3Env (fun _ => ArtifactState.absent) "deprecated_apis_report.txt") =
      some (padTo 30 "APIs Obsoletas" ++ " " ++ "[!] Requer atencao") ∧
    strStrip scannerHeader ≠ "" := by decide

/-- C4 counterexample: in a fully successful gated run (`okEnv`), it is
not the case that every Analyzer Runner invocation precedes the
Obsolete-Marker Scanner: the formatting check (`check_code_format`, an
external-analyzer invocation, trace position 5) runs after the scanner
(`find_deprecated_apis`, trace position 4), refuting the claimed order
"every Analyzer Runner invocation first, then the Scanner, then the
Summary Aggregator". -/
theorem C4_cex :
    ¬ (∀ (i j : Nat) (s : Step), (mainTrace okEnv).get? i = some s →
        s ∈ analyzerInvocationSteps → (mainTrace okEnv).get? j = some Step.deprecated →
        i < j) := by
  intro h
  have h5 : (mainTrace okEnv).get? 5 = some Step.format := by decide
  have h4 : (mainTrace okEnv).get? 4 = some Step.deprecated := by decide
  have := h 5 4 Step.format h5 (by decide) h4
  omega

/-- C4 (amended): on every run that passes the environment gate and in
which no report write raises, the Pipeline Driver executes exactly the
fixed order quality, duplication, dead-code, security, obsolete-marker
scanner, formatting, summary — the Summary Aggregator last and every
step running regardless of any earlier Check's exit code or output
(the environment is arbitrary elsewhere) — but the formatting check,
an Analyzer Runner invocation, runs after the scanner. -/
theorem C4_fixed_order (e : Env) (hg : check_python_environment e = true)
    (hw : ∀ n, e.writeFail n = none) :
    mainTrace e = [Step.quality, Step.duplicates, Step.unused, Step.security,
      Step.deprecated, Step.format, Step.summary] ∧
    (mainTrace e).getLast? = some Step.summary := by
  have htr := mainTrace_of_ok e hg hw
  rw [htr]
  exact ⟨rfl, rfl⟩

/-- Witness for C4 (amended) at the concrete environment `okEnv`. -/
theorem C4_fixed_order_witness :
    check_python_environment okEnv = true ∧ (∀ n, okEnv.writeFail n = none) ∧
    (mainTrace okEnv = [Step.quality, Step.duplicates, Step.unused, Step.security,
      Step.deprecated, Step.format, Step.summary] ∧
     (mainTrace okEnv).getLast? = some Step.summary) :=
  ⟨by decide, fun _ => rfl, C4_fixed_order okEnv (by decide) (fun _ => rfl)⟩

/-- C5: when at least one required package is missing (its `pip show`
output strips to empty) and the lower-cased prompt answer is not "s",
the gate returns False, no step of the pipeline begins, and no report
artifact is written. -/
theorem C5_gate_blocks (e : Env) (hmiss : missingPackages e.pipShow ≠ [])
    (hans : strLower e.answer ≠ "s") :
    check_python_environment e = false ∧ mainTrace e = [] ∧ mainWrites e = [] := by
  have h1 : ¬ ((missingPackages e.pipShow).isEmpty = true) := by
    simpa [List.isEmpty_iff] using hmiss
  have h2 : ¬ ((strLower e.answer == "s") = true) := by
    simpa [beq_iff_eq] using hans
  have hg : check_python_environment e = false := by
    simp [check_python_environment, h1, h2]
  exact ⟨hg, by simp [mainTrace, hg], by simp [mainWrites, hg]⟩

/-- A run with every required package missing and the answer "n". -/
def c5Env : Env := { okEnv with pipShow := fun _ => "", answer := "n" }

/-- Witness for C5 at the concrete environment `c5Env`. -/
theorem C5_gate_blocks_witness :
    missingPackages c5Env.pipShow ≠ [] ∧ strLower c5Env.answer ≠ "s" ∧
    (check_python_environment c5Env = false ∧ mainTrace c5Env = [] ∧
     mainWrites c5Env = []) :=
  ⟨by decide, by decide, C5_gate_blocks c5Env (by decide) (by decide)⟩

/-- C6 counterexample: for a process that exits with code 2 writing "out"
to stdout and "err" to stderr, `run_command` returns `(2, "out")` — the
captured stderr is not part of the returned text, refuting "returns the
exit code together with the captured stdout and stderr combined into a
single text blob". -/
theorem C6_cex :
    run_command (ProcResult.ok 2 "out" "err") = (2, "out") ∧
    ((2 : Int), ("out" : String)) ≠ ((2 : Int), "out" ++ "err") := by decide

/-- C6 (amended): for every command outcome, `run_command` returns the
exit code unchanged together with the captured stdout only (stderr is
captured by `capture_output=True` but discarded), for any exit code,
zero or not, without raising. -/
theorem C6_returns_stdout_only (code : Int) (out err : String) :
    run_command (ProcResult.ok code out err) = (code, out) := rfl

/-- A run in which bandit fails to launch and everything else succeeds. -/
def c7bEnv : Env := { okEnv with bandit := .exn "tool not found" }

/-- C7 counterexample: the claim asserts that every Check whose
subprocess fails to launch writes an empty report artifact, but the
security Check does not: bandit writes `security_report.txt` itself via
`-o` (line 189) and the script discards bandit's stdout (line 192), so
on a run where bandit fails to launch the script performs no write to
`security_report.txt` at all — no empty report exists for that Check
(its summary row is simply absent). -/
theorem C7_cex :
    c7bEnv.bandit = ProcResult.exn "tool not found" ∧
    check_python_environment c7bEnv = true ∧
    (mainWrites c7bEnv).lookup "security_report.txt" = none ∧
    (∀ w, w ∈ mainWrites c7bEnv → w.1 ≠ "security_report.txt") := by decide

/-- C7 (amended): a subprocess launch failure is caught inside
`run_command`, which returns exit code -1 with empty captured text, and
the whole fixed step order — every subsequent Check and the Summary
Aggregator included — still executes (the trace does not depend on any
command's outcome). Every Check whose artifact the script itself writes
(flake8, pylint, radon cc, radon dupes, vulture, detect-secrets, black)
then writes an empty report artifact; the security Check's artifact is
written by bandit itself, so the run never writes
`security_report.txt`, and on a bandit launch failure no report
artifact is created for that Check. -/
theorem C7_launch_failure_tolerated (e : Env) (m : String)
    (hg : check_python_environment e = true) (hw : ∀ n, e.writeFail n = none) :
    run_command (ProcResult.exn m) = (-1, "") ∧
    mainTrace e = stepOrder ∧
    Step.summary ∈ mainTrace e ∧
    (mainWrites e).lookup "security_report.txt" = none ∧
    (e.flake8 = ProcResult.exn m →
      (mainWrites e).lookup "flake8_report.txt" = some "") ∧
    (e.pylint = ProcResult.exn m →
      (mainWrites e).lookup "pylint_report.txt" = some "") ∧
    (e.radonCC = ProcResult.exn m →
      (mainWrites e).lookup "radon_cc_report.txt" = some "") ∧
    (e.radonDupes = ProcResult.exn m →
      (mainWrites e).lookup "duplicate_code_report.txt" = some "") ∧
    (e.vulture = ProcResult.exn m →
      (mainWrites e).lookup "unused_code_report.txt" = some "") ∧
    (e.detectSecrets = ProcResult.exn m →
      (mainWrites e).lookup "secrets_report.txt" = some "") ∧
    (e.black = ProcResult.exn m →
      (mainWrites e).lookup "code_format_report.txt" = some "") := by
  have hwr := mainWrites_of_ok e hg hw
  have htr := mainTrace_of_ok e hg hw
  refine ⟨rfl, htr, by rw [htr]; decide,
    by rw [hwr]; simp [explicitWrites, List.lookup], ?_, ?_, ?_, ?_, ?_, ?_, ?_⟩ <;>
    (intro hx; rw [hwr]; simp [explicitWrites, hx, run_command, List.lookup])

/-- A run in which two analyzers fail to launch and everything else succeeds. -/
def c7Env : Env :=
  { okEnv with vulture := .exn "tool not found", radonDupes := .exn "tool not found" }

/-- Witness for C7 (amended) at the concrete environment `c7Env`. -/
theorem C7_launch_failure_tolerated_witness :
    check_python_environment c7Env = true ∧ (∀ n, c7Env.writeFail n = none) ∧
    (run_command (ProcResult.exn "tool not found") = (-1, "") ∧
     mainTrace c7Env = stepOrder ∧
     Step.summary ∈ mainTrace c7Env ∧
     (mainWrites c7Env).lookup "security_report.txt" = none ∧
     (c7Env.flake8 = ProcResult.exn "tool not found" →
       (mainWrites c7Env).lookup "flake8_report.txt" = some "") ∧
     (c7Env.pylint = ProcResult.exn "tool not found" →
       (mainWrites c7Env).lookup "pylint_report.txt" = some "") ∧
     (c7Env.radonCC = ProcResult.exn "tool not found" →
       (mainWrites c7Env).lookup "radon_cc_report.txt" = some "") ∧
     (c7Env.radonDupes = ProcResult.exn "tool not found" →
       (mainWrites c7Env).lookup "duplicate_code_report.txt" = some "") ∧
     (c7Env.vulture = ProcResult.exn "tool not found" →
       (mainWrites c7Env).lookup "unused_code_report.txt" = some "") ∧
     (c7Env.detectSecrets = ProcResult.exn "tool not found" →
       (mainWrites c7Env).lookup "secrets_report.txt" = some "") ∧
     (c7Env.black = ProcResult.exn "tool not found" →
       (mainWrites c7Env).lookup "code_format_report.txt" = some "")) :=
  ⟨by decide, fun _ => rfl,
    C7_launch_failure_tolerated c7Env "tool not found" (by decide) (fun _ => rfl)⟩

/-- C2: for every Check title in the fixed title-to-filename mapping, the
Summary Aggregator omits the row iff the artifact is absent; emits an
ERRO row carrying the read-failure reason iff the file exists but
reading raises; otherwise emits the attention label iff the stripped
content is non-empty and the OK label iff it is empty; and the rendered
summary is the header followed by exactly those rows in mapping order. -/
theorem C2_summary_rows (title filename : String) (store : String → ArtifactState)
    (hmem : (title, filename) ∈ reportsList) :
    (summaryRow title (store filename) = none ↔
      store filename = ArtifactState.absent) ∧
    (∀ r, store filename = ArtifactState.unreadable r →
      summaryRow title (store filename) =
        some (padTo 30 title ++ " " ++ ("[ERRO] Falha ao ler o arquivo: " ++ r))) ∧
    (∀ c, store filename = ArtifactState.readable c →
      ∃ label, summaryRow title (store filename) = some (padTo 30 title ++ " " ++ label) ∧
        (label = "[!] Requer atencao" ↔ strStrip c ≠ "") ∧
        (label = "[OK] Sem problemas" ↔ strStrip c = "")) ∧
    generate_summary_report store =
      summaryHeaderLines ++ reportsList.filterMap (fun tf => summaryRow tf.1 (store tf.2)) := by
  refine ⟨?_, ?_, ?_, rfl⟩
  · cases hst : store filename <;> simp [summaryRow, hst]
  · intro r hst
    simp [summaryRow, hst]
  · intro c hst
    by_cases hc : strStrip c = ""
    · refine ⟨"[OK] Sem problemas", ?_, ?_, ?_⟩
      · simp [summaryRow, hst, hc]
      · rw [hc]; decide
      · rw [hc]; decide
    · refine ⟨"[!] Requer atencao", ?_, ?_, ?_⟩
      · simp [summaryRow, hst, hc]
      · simp [hc]
      · constructor
        · intro h; exact absurd h (by decide)
        · intro h; exact absurd h hc

/-- A store in which every artifact is absent. -/
def c2Store : String → ArtifactState := fun _ => ArtifactState.absent

/-- Witness for C2 at the obsolete-APIs mapping entry and the all-absent store. -/
theorem C2_summary_rows_witness :
    ("APIs Obsoletas", "deprecated_apis_report.txt") ∈ reportsList ∧
    ((summaryRow "APIs Obsoletas" (c2Store "deprecated_apis_report.txt") = none ↔
       c2Store "deprecated_apis_report.txt" = ArtifactState.absent) ∧
     (∀ r, c2Store "deprecated_apis_report.txt" = ArtifactState.unreadable r →
       summaryRow "APIs Obsoletas" (c2Store "deprecated_apis_report.txt") =
         some (padTo 30 "APIs Obsoletas" ++ " " ++
           ("[ERRO] Falha ao ler o arquivo: " ++ r))) ∧
     (∀ c, c2Store "deprecated_apis_report.txt" = ArtifactState.readable c →
       ∃ label, summaryRow "APIs Obsoletas" (c2Store "deprecated_apis_report.txt") =
           some (padTo 30 "APIs Obsoletas" ++ " " ++ label) ∧
         (label = "[!] Requer atencao" ↔ strStrip c ≠ "") ∧
         (label = "[OK] Sem problemas" ↔ strStrip c = "")) ∧
     generate_summary_report c2Store =
       summaryHeaderLines ++
         reportsList.filterMap (fun tf => summaryRow tf.1 (c2Store tf.2))) :=
  ⟨by decide, C2_summary_rows "APIs Obsoletas" "deprecated_apis_report.txt" c2Store (by decide)⟩

/-- Appending on the left is injective for strings. -/
theorem strAppend_right_inj (a x y : String) : a ++ x = a ++ y ↔ x = y := by
  constructor
  · intro h
    cases a with
    | mk la =>
      cases x with
      | mk lx =>
        cases y with
        | mk ly =>
          have hd : la ++ lx = la ++ ly := congrArg String.data h
          exact congrArg String.mk (List.append_cancel_left hd)
  · intro h
    rw [h]

/-- C8: after any gated run in which every write succeeds, the summary
status of the duplication check ("Codigo Duplicado", fed by the captured
stdout of `radon dupes`) and of the dead-code check ("Codigo Nao
Utilizado", fed by the captured stdout of vulture) is the attention
label iff that captured text is non-empty after stripping whitespace —
for every exit code the tools may return, so the derivation is
emptiness-based, not exit-code-based. -/
theorem C8_emptiness_based (e : Env) (base : String → ArtifactState)
    (hg : check_python_environment e = true) (hw : ∀ n, e.writeFail n = none) :
    (storeAfter e base "duplicate_code_report.txt" =
       ArtifactState.readable (run_command e.radonDupes).2 ∧
     (summaryRow "Codigo Duplicado" (storeAfter e base "duplicate_code_report.txt") =
        some (padTo 30 "Codigo Duplicado" ++ " " ++ "[!] Requer atencao") ↔
      strStrip (run_command e.radonDupes).2 ≠ "")) ∧
    (storeAfter e base "unused_code_report.txt" =
       ArtifactState.readable (run_command e.vulture).2 ∧
     (summaryRow "Codigo Nao Utilizado" (storeAfter e base "unused_code_report.txt") =
        some (padTo 30 "Codigo Nao Utilizado" ++ " " ++ "[!] Requer atencao") ↔
      strStrip (run_command e.vulture).2 ≠ "")) := by
  have hwr := mainWrites_of_ok e hg hw
  have key : ∀ (t c : String),
      (summaryRow t (ArtifactState.readable c) =
        some (padTo 30 t ++ " " ++ "[!] Requer atencao") ↔ strStrip c ≠ "") := by
    intro t c
    by_cases hc : strStrip c = ""
    · simp only [summaryRow]
      rw [hc]
      simp only [Option.some.injEq, strAppend_right_inj]
      decide
    · simp [summaryRow, hc]
  have h1 : storeAfter e base "duplicate_code_report.txt" =
      ArtifactState.readable (run_command e.radonDupes).2 := by
    simp [storeAfter, hwr, explicitWrites, List.lookup]
  have h2 : storeAfter e base "unused_code_report.txt" =
      ArtifactState.readable (run_command e.vulture).2 := by
    simp [storeAfter, hwr, explicitWrites, List.lookup]
  exact ⟨⟨h1, by rw [h1]; exact key _ _⟩, ⟨h2, by rw [h2]; exact key _ _⟩⟩

/-- Witness for C8 at the concrete environment `okEnv` over an all-absent base store. -/
theorem C8_emptiness_based_witness :
    check_python_environment okEnv = true ∧ (∀ n, okEnv.writeFail n = none) ∧
    ((storeAfter okEnv (fun _ => ArtifactState.absent) "duplicate_code_report.txt" =
        ArtifactState.readable (run_command okEnv.radonDupes).2 ∧
      (summaryRow "Codigo Duplicado"
          (storeAfter okEnv (fun _ => ArtifactState.absent) "duplicate_code_report.txt") =
         some (padTo 30 "Codigo Duplicado" ++ " " ++ "[!] Requer atencao") ↔
       strStrip (run_command okEnv.radonDupes).2 ≠ "")) ∧
     (storeAfter okEnv (fun _ => ArtifactState.absent) "unused_code_report.txt" =
        ArtifactState.readable (run_command okEnv.vulture).2 ∧
      (summaryRow "Codigo Nao Utilizado"
          (storeAfter okEnv (fun _ => ArtifactState.absent) "unused_code_report.txt") =
         some (padTo 30 "Codigo Nao Utilizado" ++ " " ++ "[!] Requer atencao") ↔
       strStrip (run_command okEnv.vulture).2 ≠ ""))) :=
  ⟨by decide, fun _ => rfl,
    C8_emptiness_based okEnv (fun _ => ArtifactState.absent) (by decide) (fun _ => rfl)⟩

/-- A fully successful run except that writing `flake8_report.txt` raises. -/
def c10Env : Env :=
  { okEnv with
    writeFail := fun n => if n == "flake8_report.txt" then some "disk full" else none }

/-- C10 counterexample: when writing the first report artifact raises,
the run aborts inside the first Check with the exception pending: no
later Check begins, the Summary Aggregator never runs, and no artifact
write completes — refuting "the failure is contained within that Check
and the pipeline continues to the remaining Checks and the Summary
Aggregator". -/
theorem C10_cex :
    mainTrace c10Env = [Step.quality] ∧
    Step.summary ∉ mainTrace c10Env ∧
    mainWrites c10Env = [] ∧
    (pipelineRun c10Env).2.errored = some "disk full" := by decide

/-- C10 (amended): a report-artifact write failure is not caught
anywhere (neither in the Check nor in `main`): if writing
`flake8_report.txt` raises on a gate-passing run, the exception
propagates, only the first Check begins, the remaining Checks and the
Summary Aggregator do not execute, and the run ends with the exception
pending. -/
theorem C10_write_failure_aborts (e : Env) (m : String)
    (hg : check_python_environment e = true)
    (hfail : e.writeFail "flake8_report.txt" = some m) :
    mainTrace e = [Step.quality] ∧ mainWrites e = [] ∧
    (pipelineRun e).2.errored = some m ∧ Step.summary ∉ mainTrace e := by
  have hpr : pipelineRun e = ([Step.quality], ⟨[], some m⟩) := by
    simp [pipelineRun, stepOrder, runSteps, stepExec, analyze_code_quality, doWrite, hfail]
  refine ⟨by simp [mainTrace, hg, hpr], by simp [mainWrites, hg, hpr],
    by simp [hpr], ?_⟩
  simp [mainTrace, hg, hpr]

/-- Witness for C10 (amended) at the concrete environment `c10Env`. -/
theorem C10_write_failure_aborts_witness :
    check_python_environment c10Env = true ∧
    c10Env.writeFail "flake8_report.txt" = some "disk full" ∧
    (mainTrace c10Env = [Step.quality] ∧ mainWrites c10Env = [] ∧
     (pipelineRun c10Env).2.errored = some "disk full" ∧
     Step.summary ∉ mainTrace c10Env) :=
  ⟨by decide, by decide, C10_write_failure_aborts c10Env "disk full" (by decide) (by decide)⟩
